import Mathlib

/-!
Shallow embedding of the window-embedding engine of the `wobbling`
repository (`src/src-tauri/src/wallpaper.rs` and the non-Windows command
stubs of `src/src-tauri/src/lib.rs`), together with proofs settling the
spec claims about it.

Modelling conventions:
* Window handles (`HWND`, `isize`) are `Int`; the null handle is `0`.
* Win32 style bitmasks (`i32` in the source) are modelled as `Nat`
  holding the 32-bit pattern; the source only ever clears fixed bits
  below bit 24 and stores/restores the masks verbatim, so the pattern
  view is faithful.
* The ambient OS state an operation reads (shell topology, the target
  window's current properties, virtual-screen metrics, monitor query
  outcome) is an explicit `Env` / `WindowProps` value; OS mutations of
  the target window become explicit `WindowProps` results.
-/

/-- Structure `RECT` from `windows::Win32::Foundation` as used by the source. -/
structure RECT where
  left : Int
  top : Int
  right : Int
  bottom : Int
deriving DecidableEq, Repr

/-- The mutable properties of the single target window that the engine
reads and writes: its parent handle (0 when it has none), its two style
bitmasks, and its screen rectangle. -/
structure WindowProps where
  parent : Int
  style : Nat
  exStyle : Nat
  rect : RECT
deriving DecidableEq, Repr

/-- One top-level window of class `WorkerW`, as seen by the enumeration
in `find_worker_w`: its handle and whether it has a direct child of
class `SHELLDLL_DefView`. -/
structure WorkerW where
  handle : Int
  hasDefView : Bool
deriving DecidableEq, Repr

/-- The ambient OS state read by the engine: the `Progman` window handle
(`none` when `FindWindowW` fails), the top-level `WorkerW` windows in
enumeration (creation) order, the virtual-screen metrics
`(x, y, width, height)`, and the primary monitor's rectangle (`none`
when `GetMonitorInfoW` fails). -/
structure Env where
  progman : Option Int
  workerWs : List WorkerW
  virtualScreen : Int × Int × Int × Int
  primaryMonitor : Option RECT
deriving DecidableEq, Repr

/-- Error enum `WallpaperError` from `wallpaper.rs`. -/
inductive WallpaperError where
  | ProgmanNotFound
  | WorkerWNotFound
  | SetParentFailed
  | InvalidWindowHandle
  | AlreadyWallpaperMode
  | NotWallpaperMode
  | WindowsApi (msg : String)
deriving DecidableEq, Repr

/-- Struct `WallpaperState` from `wallpaper.rs`: the process-wide embedding
state. `original_style` and `original_ex_style` are plain integers
(default 0), the other snapshot fields are `Option`s. -/
structure WallpaperState where
  is_active : Bool
  original_parent : Option Int
  original_style : Nat
  original_ex_style : Nat
  original_rect : Option RECT
  worker_w : Option Int
deriving DecidableEq, Repr

/-- The zero-initialised `STATE` value from `wallpaper.rs`. -/
def initialState : WallpaperState :=
  { is_active := false
    original_parent := none
    original_style := 0
    original_ex_style := 0
    original_rect := none
    worker_w := none }

/-- Struct `MonitorInfo` from `wallpaper.rs`. -/
structure MonitorInfo where
  index : Nat
  x : Int
  y : Int
  width : Int
  height : Int
  is_primary : Bool
deriving DecidableEq, Repr

deriving instance DecidableEq for Except

/-- Function `find_progman`: locate the `Progman` window, failing with
`ProgmanNotFound` when `FindWindowW` errors or returns a null handle. -/
def find_progman (env : Env) : Except WallpaperError Int :=
  match env.progman with
  | none => Except.error WallpaperError.ProgmanNotFound
  | some h =>
      if h = 0 then Except.error WallpaperError.ProgmanNotFound
      else Except.ok h

/-- Function `spawn_worker_w`: sends the undocumented `0x052C` message with a
timeout and ignores the outcome; it always returns `Ok(())`. -/
def spawn_worker_w (progman : Int) : Except WallpaperError Unit :=
  Except.ok ()

/-- The enumeration loop of `find_worker_w` over the `WorkerW` windows in
order: on the first window having a `SHELLDLL_DefView` child it takes the
next `WorkerW` in the enumeration (`FindWindowExW` after that handle) and
stops; a null result — end of enumeration, or no window with the child —
yields `WorkerWNotFound`. -/
def find_worker_w_loop : List WorkerW → Except WallpaperError Int
  | [] => Except.error WallpaperError.WorkerWNotFound
  | w :: rest =>
      if w.hasDefView then
        match rest with
        | [] => Except.error WallpaperError.WorkerWNotFound
        | w2 :: _ => Except.ok w2.handle
      else find_worker_w_loop rest

/-- Function `find_worker_w` from `wallpaper.rs`. -/
def find_worker_w (env : Env) : Except WallpaperError Int :=
  find_worker_w_loop env.workerWs

/-- Function `get_virtual_screen`: the four `GetSystemMetrics` virtual-screen
reads. -/
def get_virtual_screen (env : Env) : Int × Int × Int × Int :=
  env.virtualScreen

/-- All 32 bits set: the complement mask for clearing bits of an `i32`
pattern. -/
def mask32 : Nat := 2 ^ 32 - 1

/-- Computes `x & !m` on 32-bit patterns. -/
def andNot32 (x m : Nat) : Nat := x &&& (mask32 ^^^ m)

def WS_CAPTION : Nat := 0x00C00000
def WS_THICKFRAME : Nat := 0x00040000
def WS_MINIMIZEBOX : Nat := 0x00020000
def WS_MAXIMIZEBOX : Nat := 0x00010000
def WS_SYSMENU : Nat := 0x00080000
def WS_EX_DLGMODALFRAME : Nat := 0x00000001
def WS_EX_CLIENTEDGE : Nat := 0x00000200
def WS_EX_STATICEDGE : Nat := 0x00020000

/-- The `new_style` computation of `set_as_wallpaper`: original style
with the five chrome bits cleared, in the source's clearing order. -/
def compute_new_style (s : Nat) : Nat :=
  andNot32 (andNot32 (andNot32 (andNot32 (andNot32 s
    WS_CAPTION) WS_THICKFRAME) WS_MINIMIZEBOX) WS_MAXIMIZEBOX) WS_SYSMENU

/-- The `new_ex_style` computation of `set_as_wallpaper`. -/
def compute_new_ex_style (s : Nat) : Nat :=
  andNot32 (andNot32 (andNot32 s
    WS_EX_DLGMODALFRAME) WS_EX_CLIENTEDGE) WS_EX_STATICEDGE

/-- Function `set_as_wallpaper` from `wallpaper.rs`. Takes the target handle, the
ambient OS state, the current `STATE` contents and the target window's
current properties; returns the result together with the new state and
window properties. The snapshot, restyle, reparent and resize steps are
the source's, in order; `hwnd` itself is never inspected beyond being the
window the OS calls address. -/
def set_as_wallpaper (hwnd : Int) (env : Env) (st : WallpaperState)
    (w : WindowProps) :
    Except WallpaperError Unit × WallpaperState × WindowProps :=
  if st.is_active then
    (Except.error WallpaperError.AlreadyWallpaperMode, st, w)
  else
    match find_progman env with
    | Except.error e => (Except.error e, st, w)
    | Except.ok progman =>
      match spawn_worker_w progman with
      | Except.error e => (Except.error e, st, w)
      | Except.ok _ =>
        match find_worker_w env with
        | Except.error e => (Except.error e, st, w)
        | Except.ok worker_w =>
          let st1 : WallpaperState :=
            { is_active := true
              original_parent := some w.parent
              original_style := w.style
              original_ex_style := w.exStyle
              original_rect := some w.rect
              worker_w := some worker_w }
          let new_style := compute_new_style w.style
          let new_ex_style := compute_new_ex_style w.exStyle
          let vs := get_virtual_screen env
          let w1 : WindowProps :=
            { parent := worker_w
              style := new_style
              exStyle := new_ex_style
              rect :=
                { left := vs.1
                  top := vs.2.1
                  right := vs.1 + vs.2.2.1
                  bottom := vs.2.1 + vs.2.2.2 } }
          (Except.ok (), st1, w1)

/-- Function `restore_window` from `wallpaper.rs`. Reparents to null, restores the
two style masks, restores the rectangle from the snapshot (position
`left/top`, size `right-left` by `bottom-top`), then resets `is_active`,
`original_parent`, `original_rect` and `worker_w`. -/
def restore_window (hwnd : Int) (st : WallpaperState) (w : WindowProps) :
    Except WallpaperError Unit × WallpaperState × WindowProps :=
  if !st.is_active then
    (Except.error WallpaperError.NotWallpaperMode, st, w)
  else
    let w1 : WindowProps := { w with parent := 0 }
    let w2 : WindowProps :=
      { w1 with style := st.original_style, exStyle := st.original_ex_style }
    let w3 : WindowProps :=
      match st.original_rect with
      | some rect =>
          { w2 with rect :=
              { left := rect.left
                top := rect.top
                right := rect.left + (rect.right - rect.left)
                bottom := rect.top + (rect.bottom - rect.top) } }
      | none => w2
    let st1 : WallpaperState :=
      { st with is_active := false, original_parent := none,
                original_rect := none, worker_w := none }
    (Except.ok (), st1, w3)

/-- Function `is_wallpaper_mode` from `wallpaper.rs`: read of the `is_active`
flag. -/
def is_wallpaper_mode (st : WallpaperState) : Bool :=
  st.is_active

/-- Function `get_all_monitors` from `wallpaper.rs`: push the primary monitor (if
`GetMonitorInfoW` succeeds) as index 0 / primary, then, if the virtual
screen exceeds it in width or height or has a negative origin, replace
the list with the single virtual-screen entry. -/
def get_all_monitors (env : Env) : List MonitorInfo :=
  let monitors : List MonitorInfo :=
    match env.primaryMonitor with
    | some mi =>
        [{ index := 0
           x := mi.left
           y := mi.top
           width := mi.right - mi.left
           height := mi.bottom - mi.top
           is_primary := true }]
    | none => []
  let vs := get_virtual_screen env
  match monitors.head? with
  | some primary_info =>
      if vs.2.2.1 > primary_info.width ∨ vs.2.2.2 > primary_info.height ∨
          vs.1 < 0 ∨ vs.2.1 < 0 then
        [{ index := 0
           x := vs.1
           y := vs.2.1
           width := vs.2.2.1
           height := vs.2.2.2
           is_primary := true }]
      else monitors
  | none => monitors

/-- The error string of the non-Windows command stubs in `lib.rs`. -/
def platform_unsupported_msg : String :=
  "Wallpaper mode is only supported on Windows"

/-- Command `enable_wallpaper_mode` for `cfg(not(windows))` in `lib.rs`. -/
def enable_wallpaper_mode_nonwindows : Except String Unit :=
  Except.error platform_unsupported_msg

/-- Command `disable_wallpaper_mode` for `cfg(not(windows))` in `lib.rs`. -/
def disable_wallpaper_mode_nonwindows : Except String Unit :=
  Except.error platform_unsupported_msg

/-- Command `is_wallpaper_mode` for `cfg(not(windows))` in `lib.rs`. -/
def is_wallpaper_mode_nonwindows : Bool := false

/-- Command `get_monitors` for `cfg(not(windows))` in `lib.rs`. -/
def get_monitors_nonwindows : List MonitorInfo := []

/-! ### Concrete fixtures used by witnesses and counterexamples -/

/-- A healthy shell topology: `Progman` present, a `WorkerW` with the
`SHELLDLL_DefView` child followed by a bare `WorkerW`. -/
def env0 : Env :=
  { progman := some 5
    workerWs := [{ handle := 7, hasDefView := true },
                 { handle := 9, hasDefView := false }]
    virtualScreen := (0, 0, 1920, 1080)
    primaryMonitor := some { left := 0, top := 0, right := 1920, bottom := 1080 } }

/-- The spec's scenario window: overlapped style `0x00CF0000`, rectangle
`(100,100,900,700)`. -/
def w0 : WindowProps :=
  { parent := 0
    style := 0x00CF0000
    exStyle := 0x100
    rect := { left := 100, top := 100, right := 900, bottom := 700 } }

/-- The state `set_as_wallpaper` produces from `initialState` and `w0`
under `env0`. -/
def stE : WallpaperState :=
  { is_active := true
    original_parent := some 0
    original_style := 0x00CF0000
    original_ex_style := 0x100
    original_rect := some { left := 100, top := 100, right := 900, bottom := 700 }
    worker_w := some 9 }

/-- The window properties `set_as_wallpaper` produces from `w0` under
`env0`. -/
def wE : WindowProps :=
  { parent := 9
    style := 0
    exStyle := 0x100
    rect := { left := 0, top := 0, right := 1920, bottom := 1080 } }

/-- A window with small nonzero style masks, for exercising the state
reset on restore. -/
def w5 : WindowProps :=
  { parent := 0
    style := 5
    exStyle := 3
    rect := { left := 1, top := 2, right := 3, bottom := 4 } }

/-- A shell whose `WorkerW` enumeration holds two consecutive windows
with a `SHELLDLL_DefView` child followed by one without. -/
def envTwoDefViews : Env :=
  { progman := some 5
    workerWs := [{ handle := 4, hasDefView := true },
                 { handle := 6, hasDefView := true },
                 { handle := 8, hasDefView := false }]
    virtualScreen := (0, 0, 0, 0)
    primaryMonitor := none }

/-- An environment where `GetMonitorInfoW` fails for the primary
monitor. -/
def envNoMonitorInfo : Env :=
  { progman := some 5
    workerWs := []
    virtualScreen := (0, 0, 1920, 1080)
    primaryMonitor := none }

/-- The single entry `get_all_monitors` produces under `env0`. -/
def mon0 : MonitorInfo :=
  { index := 0
    x := 0
    y := 0
    width := 1920
    height := 1080
    is_primary := true }

/-- Modelled from the spec: the locator's traversal as §4.1 step 4 words
it — after the companion window that has the desktop-icon-view child,
return the first companion window that does **not** have such a child.
Declared only to be compared against `find_worker_w_loop`, which is the
code's traversal. -/
def first_without_defview : List WorkerW → Except WallpaperError Int
  | [] => Except.error WallpaperError.WorkerWNotFound
  | w :: rest =>
      if w.hasDefView then first_without_defview rest
      else Except.ok w.handle

/-- Modelled from the spec: scan for the companion window having the
desktop-icon-view child, then continue the enumeration to the first
companion window without one (`first_without_defview`). -/
def find_worker_w_spec : List WorkerW → Except WallpaperError Int
  | [] => Except.error WallpaperError.WorkerWNotFound
  | w :: rest =>
      if w.hasDefView then first_without_defview rest
      else find_worker_w_spec rest

/-! ### Helper lemmas -/

/-- Characterisation of a successful `set_as_wallpaper` run: the state
was inactive, the locator succeeded, the snapshot holds the incoming
window's configuration, and the window got the stripped styles, the
background host as parent, and the virtual-screen rectangle. -/
lemma set_as_wallpaper_ok_iff (hwnd : Int) (env : Env) (st st1 : WallpaperState)
    (w w1 : WindowProps)
    (h : set_as_wallpaper hwnd env st w = (Except.ok (), st1, w1)) :
    st.is_active = false ∧
    ∃ ww, find_worker_w env = Except.ok ww ∧
      st1 = { is_active := true
              original_parent := some w.parent
              original_style := w.style
              original_ex_style := w.exStyle
              original_rect := some w.rect
              worker_w := some ww } ∧
      w1 = { parent := ww
             style := compute_new_style w.style
             exStyle := compute_new_ex_style w.exStyle
             rect := { left := (get_virtual_screen env).1
                       top := (get_virtual_screen env).2.1
                       right := (get_virtual_screen env).1 + (get_virtual_screen env).2.2.1
                       bottom := (get_virtual_screen env).2.1 + (get_virtual_screen env).2.2.2 } } := by
  unfold set_as_wallpaper at h
  split at h
  · simp at h
  · next hact =>
    refine ⟨by simpa using hact, ?_⟩
    split at h
    · simp at h
    · split at h
      · simp at h
      · split at h
        · simp at h
        · next ww hww =>
          simp only [Prod.mk.injEq] at h
          exact ⟨ww, hww, h.2.1.symm, h.2.2.symm⟩

/-- Restoring a rectangle via position `left/top` and size `right-left`
by `bottom-top` reproduces it exactly. -/
lemma rect_roundtrip (r : RECT) :
    RECT.mk r.left r.top (r.left + (r.right - r.left))
      (r.top + (r.bottom - r.top)) = r := by
  obtain ⟨a, b, c, d⟩ := r
  have h1 : a + (c - a) = c := by omega
  have h2 : b + (d - b) = d := by omega
  simp [h1, h2]

/-! ### Claim theorems -/

/-- C1: for a window with pre-embed style `S`, extended style `X` and
screen rectangle `R`, a successful `set_as_wallpaper` followed by
`restore_window` succeeds and leaves the window's style `S`, extended
style `X` and rectangle `R` exactly: the restore applies the snapshot
taken during embed, positioning at `R.left/R.top` with size
`R.right - R.left` by `R.bottom - R.top`. -/
theorem embed_then_restore_roundtrip (hwnd : Int) (env : Env)
    (st st1 : WallpaperState) (w w1 : WindowProps)
    (h : set_as_wallpaper hwnd env st w = (Except.ok (), st1, w1)) :
    (restore_window hwnd st1 w1).1 = Except.ok () ∧
    (restore_window hwnd st1 w1).2.2.style = w.style ∧
    (restore_window hwnd st1 w1).2.2.exStyle = w.exStyle ∧
    (restore_window hwnd st1 w1).2.2.rect = w.rect := by
  obtain ⟨hact, ww, hww, hst1, hw1⟩ :=
    set_as_wallpaper_ok_iff hwnd env st st1 w w1 h
  subst hst1
  exact ⟨rfl, rfl, rfl, rect_roundtrip w.rect⟩

/-- Witness for C1 at the spec's scenario: style `0x00CF0000`, rectangle
`(100,100,900,700)`, healthy shell topology. -/
theorem embed_then_restore_roundtrip_witness :
    (restore_window 1 stE wE).1 = Except.ok () ∧
    (restore_window 1 stE wE).2.2.style = w0.style ∧
    (restore_window 1 stE wE).2.2.exStyle = w0.exStyle ∧
    (restore_window 1 stE wE).2.2.rect = w0.rect :=
  embed_then_restore_roundtrip 1 env0 initialState stE w0 wE (by decide)

/-- C2: when locating the background host fails — `find_progman` fails
with `ProgmanNotFound`, or it succeeds and `find_worker_w` fails with
`WorkerWNotFound` — `set_as_wallpaper` returns exactly that error and
leaves both the `STATE` contents and the target window untouched. -/
theorem locate_failure_is_atomic (hwnd : Int) (env : Env)
    (st : WallpaperState) (w : WindowProps) (e : WallpaperError)
    (hact : st.is_active = false)
    (hloc : find_progman env = Except.error e ∨
      (∃ p, find_progman env = Except.ok p ∧
        find_worker_w env = Except.error e)) :
    set_as_wallpaper hwnd env st w = (Except.error e, st, w) := by
  rcases hloc with hp | ⟨p, hp, hw⟩
  · simp [set_as_wallpaper, hact, hp]
  · simp [set_as_wallpaper, hact, hp, spawn_worker_w, hw]

/-- A shell with no `Progman` window at all. -/
def envNoProgman : Env :=
  { progman := none
    workerWs := []
    virtualScreen := (0, 0, 0, 0)
    primaryMonitor := none }

/-- Witness for C2: with `Progman` absent, embed returns
`ProgmanNotFound` and changes nothing. -/
theorem locate_failure_is_atomic_witness :
    set_as_wallpaper 1 envNoProgman initialState w0 =
      (Except.error WallpaperError.ProgmanNotFound, initialState, w0) :=
  locate_failure_is_atomic 1 envNoProgman initialState w0
    WallpaperError.ProgmanNotFound rfl (Or.inl rfl)

/-- C3: `set_as_wallpaper` while `is_active` is true returns
`AlreadyWallpaperMode` and mutates neither the state nor the window;
`restore_window` while `is_active` is false returns `NotWallpaperMode`
and likewise mutates nothing — so a second embed leaves the state
identical to the state after the first. -/
theorem state_exclusivity (hwnd : Int) (env : Env) (st : WallpaperState)
    (w : WindowProps) :
    (st.is_active = true →
      set_as_wallpaper hwnd env st w =
        (Except.error WallpaperError.AlreadyWallpaperMode, st, w)) ∧
    (st.is_active = false →
      restore_window hwnd st w =
        (Except.error WallpaperError.NotWallpaperMode, st, w)) := by
  constructor
  · intro h
    simp [set_as_wallpaper, h]
  · intro h
    simp [restore_window, h]

/-- Witness for C3: the second embed after the scenario embed errors with
`AlreadyWallpaperMode` and keeps the post-first-embed state; a restore
from the initial state errors with `NotWallpaperMode` and keeps it. -/
theorem state_exclusivity_witness :
    set_as_wallpaper 1 env0 stE wE =
      (Except.error WallpaperError.AlreadyWallpaperMode, stE, wE) ∧
    restore_window 1 initialState w0 =
      (Except.error WallpaperError.NotWallpaperMode, initialState, w0) :=
  ⟨(state_exclusivity 1 env0 stE wE).1 rfl,
   (state_exclusivity 1 env0 initialState w0).2 rfl⟩

/-- C4 counterexample: embed a window with style 5 / extended style 3
from the initial state under a healthy shell, then restore. The
resulting state has `is_active = false`, yet the two style-snapshot
fields still hold 5 and 3 — `restore_window` does not clear them, so the
"`active = false` implies all other fields unset" invariant fails. -/
theorem restore_keeps_style_fields_counterexample :
    (restore_window 1 (set_as_wallpaper 1 env0 initialState w5).2.1
      (set_as_wallpaper 1 env0 initialState w5).2.2).2.1.is_active = false ∧
    ¬((restore_window 1 (set_as_wallpaper 1 env0 initialState w5).2.1
        (set_as_wallpaper 1 env0 initialState w5).2.2).2.1.original_style = 0 ∧
      (restore_window 1 (set_as_wallpaper 1 env0 initialState w5).2.1
        (set_as_wallpaper 1 env0 initialState w5).2.2).2.1.original_ex_style = 0) ∧
    (restore_window 1 (set_as_wallpaper 1 env0 initialState w5).2.1
      (set_as_wallpaper 1 env0 initialState w5).2.2).2.1.original_style = 5 ∧
    (restore_window 1 (set_as_wallpaper 1 env0 initialState w5).2.1
      (set_as_wallpaper 1 env0 initialState w5).2.2).2.1.original_ex_style = 3 := by
  decide

/-- C4 (amended): after `restore_window` from an active state,
`is_active` is false and the three `Option` snapshot fields
(`original_parent`, `original_rect`, `worker_w`) are cleared to `none`,
but `original_style` and `original_ex_style` are left holding their
snapshot values — they are not reset. -/
theorem restore_resets_optional_fields (hwnd : Int) (st : WallpaperState)
    (w : WindowProps) (h : st.is_active = true) :
    (restore_window hwnd st w).2.1.is_active = false ∧
    (restore_window hwnd st w).2.1.original_parent = none ∧
    (restore_window hwnd st w).2.1.original_rect = none ∧
    (restore_window hwnd st w).2.1.worker_w = none ∧
    (restore_window hwnd st w).2.1.original_style = st.original_style ∧
    (restore_window hwnd st w).2.1.original_ex_style = st.original_ex_style := by
  simp [restore_window, h]

/-- Witness for the amended C4 at the scenario's post-embed state. -/
theorem restore_resets_optional_fields_witness :
    (restore_window 1 stE wE).2.1.is_active = false ∧
    (restore_window 1 stE wE).2.1.original_parent = none ∧
    (restore_window 1 stE wE).2.1.original_rect = none ∧
    (restore_window 1 stE wE).2.1.worker_w = none ∧
    (restore_window 1 stE wE).2.1.original_style = stE.original_style ∧
    (restore_window 1 stE wE).2.1.original_ex_style = stE.original_ex_style :=
  restore_resets_optional_fields 1 stE wE rfl

/-- C5 counterexample: with companion windows `[4 (has DefView child),
6 (has DefView child), 8 (no child)]` the code returns handle 6 — the
window at position 1, which *does* have a `SHELLDLL_DefView` child —
while the traversal the claim describes returns 8, the first window
without such a child past the one that has it. -/
theorem find_worker_w_counterexample :
    find_worker_w envTwoDefViews = Except.ok 6 ∧
    envTwoDefViews.workerWs[1]? = some { handle := 6, hasDefView := true } ∧
    find_worker_w_spec envTwoDefViews.workerWs = Except.ok 8 := by
  decide

/-- The enumeration loop on a list that starts with windows lacking the
`SHELLDLL_DefView` child, followed by one that has it: the result is the
handle of the very next window, or `WorkerWNotFound` when there is
none. -/
lemma find_worker_w_loop_append (l2 : List WorkerW) (w : WorkerW)
    (h2 : w.hasDefView = true) :
    ∀ l1 : List WorkerW, (∀ u ∈ l1, u.hasDefView = false) →
      find_worker_w_loop (l1 ++ w :: l2) =
        l2.head?.elim (Except.error WallpaperError.WorkerWNotFound)
          (fun w2 => Except.ok w2.handle) := by
  intro l1
  induction l1 with
  | nil =>
      intro _
      cases l2 <;> simp [find_worker_w_loop, h2]
  | cons u us ih =>
      intro h1
      have hu : u.hasDefView = false := h1 u (by simp)
      simp only [List.cons_append, find_worker_w_loop, hu, Bool.false_eq_true,
        if_false]
      exact ih (fun v hv => h1 v (by simp [hv]))

/-- The enumeration loop on a list in which no window has a
`SHELLDLL_DefView` child runs off the end and fails. -/
lemma find_worker_w_loop_all_false :
    ∀ l : List WorkerW, (∀ u ∈ l, u.hasDefView = false) →
      find_worker_w_loop l = Except.error WallpaperError.WorkerWNotFound := by
  intro l
  induction l with
  | nil =>
      intro _
      rfl
  | cons u us ih =>
      intro h
      have hu : u.hasDefView = false := h u (by simp)
      simp only [find_worker_w_loop, hu, Bool.false_eq_true, if_false]
      exact ih (fun v hv => h v (by simp [hv]))

/-- C5 (amended): when no companion-class window has a
`SHELLDLL_DefView` child, the locator fails with `WorkerWNotFound`; and
whenever the enumeration splits as windows without the child, then the
first window `w` with it, then a remainder, the locator returns the
handle of the window *immediately following* `w` in enumeration order —
without checking whether that next window itself lacks such a child —
or fails with `WorkerWNotFound` when `w` is last. -/
theorem find_worker_w_immediate_successor (env : Env) :
    ((∀ u ∈ env.workerWs, u.hasDefView = false) →
      find_worker_w env = Except.error WallpaperError.WorkerWNotFound) ∧
    (∀ (l1 l2 : List WorkerW) (w : WorkerW),
      (∀ u ∈ l1, u.hasDefView = false) → w.hasDefView = true →
      env.workerWs = l1 ++ w :: l2 →
      find_worker_w env =
        l2.head?.elim (Except.error WallpaperError.WorkerWNotFound)
          (fun w2 => Except.ok w2.handle)) := by
  constructor
  · intro h
    exact find_worker_w_loop_all_false env.workerWs h
  · intro l1 l2 w h1 h2 henv
    unfold find_worker_w
    rw [henv]
    exact find_worker_w_loop_append l2 w h2 l1 h1

/-- Witness for the amended C5, exercising both cases: under
`envNoProgman` (no companion window at all has the child) the locator
fails with `WorkerWNotFound`, and under `env0` the window after the
DefView host is handle 9 and the locator returns it. -/
theorem find_worker_w_immediate_successor_witness :
    find_worker_w envNoProgman = Except.error WallpaperError.WorkerWNotFound ∧
    find_worker_w env0 = Except.ok 9 :=
  ⟨(find_worker_w_immediate_successor envNoProgman).1 (by decide),
   (find_worker_w_immediate_successor env0).2 []
     [{ handle := 9, hasDefView := false }]
     { handle := 7, hasDefView := true }
     (by simp) rfl rfl⟩

/-- C6 counterexample: when the primary-monitor info query fails,
`get_all_monitors` returns the empty list — not "at least one entry" —
so the claim's "for every environment state" quantification fails. -/
theorem get_all_monitors_empty_counterexample :
    get_all_monitors envNoMonitorInfo = [] := by
  decide

/-- C6 (amended): whenever the primary-monitor info query succeeds,
`get_all_monitors` returns exactly one entry, and that entry has
`is_primary = true`; only when the query fails is the result empty. -/
theorem get_all_monitors_one_primary (env : Env) (mi : RECT)
    (h : env.primaryMonitor = some mi) :
    (get_all_monitors env).length = 1 ∧
    ∀ m ∈ get_all_monitors env, m.is_primary = true := by
  unfold get_all_monitors
  rw [h]
  simp only [List.head?]
  split <;> simp

/-- Witness for the amended C6 with a 1920x1080 primary monitor. -/
theorem get_all_monitors_one_primary_witness :
    (get_all_monitors env0).length = 1 ∧
    ∀ m ∈ get_all_monitors env0, m.is_primary = true :=
  get_all_monitors_one_primary env0
    { left := 0, top := 0, right := 1920, bottom := 1080 } rfl

/-- Collapsing the five sequential style-bit clearings into one 32-bit
mask: `0xFF30FFFF` is the complement of caption, thick-frame,
minimize-box, maximize-box and system-menu. -/
lemma compute_new_style_eq (s : Nat) : compute_new_style s = s &&& 0xFF30FFFF := by
  unfold compute_new_style andNot32
  rw [Nat.land_assoc, Nat.land_assoc, Nat.land_assoc, Nat.land_assoc]
  congr 1

/-- Collapsing the three extended-style clearings into one 32-bit mask:
`0xFFFDFDFE` is the complement of dialog-modal-frame, client-edge and
static-edge. -/
lemma compute_new_ex_style_eq (s : Nat) :
    compute_new_ex_style s = s &&& 0xFFFDFDFE := by
  unfold compute_new_ex_style andNot32
  rw [Nat.land_assoc, Nat.land_assoc]
  congr 1

/-- Per-bit effect of the style mask: bits 16-19 and 22-23 become false,
every other bit below 32 is preserved. -/
lemma style_mask_testBit (s : Nat) (i : Nat) (hi : i < 32) :
    (s &&& 0xFF30FFFF).testBit i =
      if i = 16 ∨ i = 17 ∨ i = 18 ∨ i = 19 ∨ i = 22 ∨ i = 23 then false
      else s.testBit i := by
  rw [Nat.testBit_land]
  have key : ∀ (b : Bool) (j : Fin 32),
      (b && Nat.testBit 0xFF30FFFF j.val) =
        if j.val = 16 ∨ j.val = 17 ∨ j.val = 18 ∨ j.val = 19 ∨
            j.val = 22 ∨ j.val = 23 then false
        else b := by decide
  exact key (s.testBit i) ⟨i, hi⟩

/-- Per-bit effect of the extended-style mask: bits 0, 9 and 17 become
false, every other bit below 32 is preserved. -/
lemma ex_style_mask_testBit (s : Nat) (i : Nat) (hi : i < 32) :
    (s &&& 0xFFFDFDFE).testBit i =
      if i = 0 ∨ i = 9 ∨ i = 17 then false
      else s.testBit i := by
  rw [Nat.testBit_land]
  have key : ∀ (b : Bool) (j : Fin 32),
      (b && Nat.testBit 0xFFFDFDFE j.val) =
        if j.val = 0 ∨ j.val = 9 ∨ j.val = 17 then false
        else b := by decide
  exact key (s.testBit i) ⟨i, hi⟩

/-- C7: on a successful embed the applied style equals the original with
exactly the caption (bits 22-23), thick-frame (18), minimize-box (17),
maximize-box (16) and system-menu (19) bits cleared, and the applied
extended style equals the original with exactly the dialog-modal-frame
(0), client-edge (9) and static-edge (17) bits cleared; every other bit
of the 32-bit masks is unchanged. -/
theorem embed_clears_exactly_chrome_bits (hwnd : Int) (env : Env)
    (st st1 : WallpaperState) (w w1 : WindowProps)
    (h : set_as_wallpaper hwnd env st w = (Except.ok (), st1, w1))
    (i : Nat) (hi : i < 32) :
    (w1.style.testBit i =
      if i = 16 ∨ i = 17 ∨ i = 18 ∨ i = 19 ∨ i = 22 ∨ i = 23 then false
      else w.style.testBit i) ∧
    (w1.exStyle.testBit i =
      if i = 0 ∨ i = 9 ∨ i = 17 then false
      else w.exStyle.testBit i) := by
  obtain ⟨-, ww, -, -, hw1⟩ := set_as_wallpaper_ok_iff hwnd env st st1 w w1 h
  subst hw1
  constructor
  · show (compute_new_style w.style).testBit i = _
    rw [compute_new_style_eq]
    exact style_mask_testBit w.style i hi
  · show (compute_new_ex_style w.exStyle).testBit i = _
    rw [compute_new_ex_style_eq]
    exact ex_style_mask_testBit w.exStyle i hi

/-- Witness for C7 at the scenario embed, at bit 22 (part of the caption
mask): cleared in the output while set in the input. -/
theorem embed_clears_exactly_chrome_bits_witness :
    (wE.style.testBit 22 =
      if 22 = 16 ∨ 22 = 17 ∨ 22 = 18 ∨ 22 = 19 ∨ 22 = 22 ∨ 22 = 23 then false
      else w0.style.testBit 22) ∧
    (wE.exStyle.testBit 22 =
      if 22 = 0 ∨ 22 = 9 ∨ 22 = 17 then false
      else w0.exStyle.testBit 22) :=
  embed_clears_exactly_chrome_bits 1 env0 initialState stE w0 wE
    (by decide) 22 (by decide)

/-- Lemma: `find_progman` only ever fails with `ProgmanNotFound`. -/
lemma find_progman_error_eq (env : Env) (e : WallpaperError)
    (h : find_progman env = Except.error e) :
    e = WallpaperError.ProgmanNotFound := by
  unfold find_progman at h
  split at h
  · simp_all
  · split at h <;> simp_all

/-- The locator loop only ever fails with `WorkerWNotFound`. -/
lemma find_worker_w_loop_error_eq :
    ∀ (l : List WorkerW) (e : WallpaperError),
      find_worker_w_loop l = Except.error e →
      e = WallpaperError.WorkerWNotFound := by
  intro l
  induction l with
  | nil =>
      intro e h
      simpa [find_worker_w_loop] using h.symm
  | cons w rest ih =>
      intro e h
      unfold find_worker_w_loop at h
      split at h
      · split at h <;> simp_all
      · exact ih e h

/-- C8 counterexample: with the null (zero) target handle, embed from
the inactive initial state under a healthy shell topology returns
`Ok(())` — not `InvalidWindowHandle` — and unembed with the null handle
from the resulting active state returns `Ok(())` as well. The null
handle is never classified as `InvalidWindowHandle`. -/
theorem null_handle_not_rejected :
    (set_as_wallpaper 0 env0 initialState w0).1 = Except.ok () ∧
    (restore_window 0 stE wE).1 = Except.ok () := by
  decide

/-- C8 (amended): the error type declares an `InvalidWindowHandle`
variant, but neither `set_as_wallpaper` nor `restore_window` ever
returns it — the target handle (null or not) is never validated, and the
outcome depends only on the active flag and the shell-topology
lookups. -/
theorem invalid_handle_never_returned (hwnd : Int) (env : Env)
    (st : WallpaperState) (w : WindowProps) :
    (set_as_wallpaper hwnd env st w).1 ≠
      Except.error WallpaperError.InvalidWindowHandle ∧
    (restore_window hwnd st w).1 ≠
      Except.error WallpaperError.InvalidWindowHandle := by
  constructor
  · unfold set_as_wallpaper
    split
    · simp
    · rcases hfp : find_progman env with e | p
      · have he := find_progman_error_eq env e hfp
        subst he
        simp
      · rcases hfw : find_worker_w env with e | ww
        · have he := find_worker_w_loop_error_eq env.workerWs e hfw
          subst he
          simp [spawn_worker_w]
        · simp [spawn_worker_w]
  · unfold restore_window
    split <;> simp

/-- C9: the non-Windows command stubs degrade gracefully: the monitor
query returns the empty sequence, embed and unembed both return the
platform-unsupported error (they are errors, not silent no-ops), and the
mode query returns false unconditionally. -/
theorem nonwindows_graceful_degradation :
    get_monitors_nonwindows = [] ∧
    enable_wallpaper_mode_nonwindows = Except.error platform_unsupported_msg ∧
    enable_wallpaper_mode_nonwindows ≠ Except.ok () ∧
    disable_wallpaper_mode_nonwindows = Except.error platform_unsupported_msg ∧
    disable_wallpaper_mode_nonwindows ≠ Except.ok () ∧
    is_wallpaper_mode_nonwindows = false := by
  refine ⟨rfl, rfl, ?_, rfl, ?_, rfl⟩ <;> simp [enable_wallpaper_mode_nonwindows,
    disable_wallpaper_mode_nonwindows]

/-- C10: for every environment, `get_all_monitors` returns at most one
entry, and any entry it returns has `index = 0` and
`is_primary = true` — the implementation never produces a true
per-monitor list. -/
theorem get_all_monitors_at_most_one (env : Env) :
    (get_all_monitors env).length ≤ 1 ∧
    ∀ m ∈ get_all_monitors env, m.index = 0 ∧ m.is_primary = true := by
  unfold get_all_monitors
  rcases env.primaryMonitor with _ | mi
  · simp
  · simp only [List.head?]
    split <;> simp

/-- Witness for C10 at `env0`, whose single entry is the primary
monitor's rectangle. -/
theorem get_all_monitors_at_most_one_witness :
    (get_all_monitors env0).length ≤ 1 ∧ (mon0.index = 0 ∧ mon0.is_primary = true) :=
  ⟨(get_all_monitors_at_most_one env0).1,
   (get_all_monitors_at_most_one env0).2 mon0 (by decide)⟩
